import Mathlib

/-!
Shallow embedding of the HTGS core pieces that the claims refer to:

* `ICudaTask` (from `ICudaTask.hpp`): constructor, `requiresCopy`,
  `hasPeerToPeerCopy`, `autoCopy`, `initialize`.
* `MemoryEdge` (from `htgs/core/graph/edge/MemoryEdge.hpp`): `applyEdge`, `copy`.
* `RuleEdge` (from `htgs/core/graph/edge/RuleEdge.hpp`): `applyEdge`, `copy`.

C++ raw pointers to tasks are modelled as natural-number identities; the
`int *cudaIds` array is modelled as a total function `Nat → Int` (pointer
indexing reads some int for any index); CUDA streams are opaque `Nat` handles;
the CUDA runtime is an explicit environment record.  Exceptions become
`Except`/explicit error fields.
-/

set_option linter.unusedVariables false

namespace HTGS

/-- State of an `htgs::ICudaTask` object: its data members
(`ICudaTask.hpp`, lines 345-352).  `stream` is the opaque CUDA stream handle. -/
structure ICudaTask where
  cudaIds : Nat → Int
  numGpus : Nat
  cudaId : Int
  nonPeerDevIds : List Int
  autoEnablePeerAccess : Bool
  stream : Nat

/-- The constructor `ICudaTask(int *cudaIds, size_t numGpus, bool autoEnablePeerAccess = true)`
(`ICudaTask.hpp`, lines 134-137).  The body assigns only `cudaIds` and `numGpus`;
`nonPeerDevIds` is a default-constructed (empty) `std::vector`; the members
`cudaId`, `stream` and `autoEnablePeerAccess` are left indeterminate, which we
model by threading through an arbitrary `indet` record holding whatever values
those members happen to start with. -/
def ICudaTask.construct (cudaIds : Nat → Int) (numGpus : Nat)
    (autoEnablePeerAccess : Bool) (indet : ICudaTask) : ICudaTask :=
  { indet with cudaIds := cudaIds, numGpus := numGpus, nonPeerDevIds := [] }

/-- `bool requiresCopy(size_t pipelineId)` (`ICudaTask.hpp`, lines 210-213):
true iff `cudaIds[pipelineId]` occurs in `nonPeerDevIds`. -/
def ICudaTask.requiresCopy (t : ICudaTask) (pipelineId : Nat) : Bool :=
  t.nonPeerDevIds.contains (t.cudaIds pipelineId)

/-- The C++ conversion `(size_t)i` of an `int` value: reduction modulo 2^64. -/
def sizeTCast (i : Int) : Nat :=
  (i % (2 ^ 64 : Int)).toNat

/-- `bool hasPeerToPeerCopy(size_t pipelineId)` (`ICudaTask.hpp`, line 235):
`return !requiresCopy((size_t)cudaId);` — the argument is unused. -/
def ICudaTask.hasPeerToPeerCopy (t : ICudaTask) (pipelineId : Nat) : Bool :=
  !(t.requiresCopy (sizeTCast t.cudaId))

/-- The slice of a `MemoryData<V>` that `autoCopy`/`requiresCopy` read:
the pipeline id of the pipeline that allocated it and the device address
returned by `data->get()`. -/
structure MemoryData where
  pipelineId : Nat
  addr : Nat

/-- One recorded `cudaMemcpyPeerAsync(dst, dstDevice, src, srcDevice, count, stream)`
call, with `count = sizeof(V) * numElems`. -/
structure PeerCopyCall where
  dstAddr : Nat
  dstDevice : Int
  srcAddr : Nat
  srcDevice : Int
  count : Int
  stream : Nat
  deriving DecidableEq

/-- `bool autoCopy(V *destination, std::shared_ptr<MemoryData<V>> data, long numElems)`
(`ICudaTask.hpp`, lines 252-266).  Returns the boolean result together with the
`cudaMemcpyPeerAsync` call it issues (if any); `elemSize` stands for `sizeof(V)`. -/
def ICudaTask.autoCopy (t : ICudaTask) (destination : Nat) (data : MemoryData)
    (numElems : Int) (elemSize : Int) : Bool × Option PeerCopyCall :=
  if t.requiresCopy data.pipelineId then
    (true, some { dstAddr := destination, dstDevice := t.cudaId,
                  srcAddr := data.addr, srcDevice := t.cudaIds data.pipelineId,
                  count := elemSize * numElems, stream := t.stream })
  else
    (false, none)

/-- The CUDA runtime environment that `initialize` interacts with:
`cudaGetDeviceCount`, `cudaDeviceCanAccessPeer`, and the handle produced by
`cudaStreamCreate`. -/
structure CudaEnv where
  deviceCount : Int
  canAccessPeer : Int → Int → Bool
  newStream : Nat

/-- Result of the peer-access loop of `initialize` (`ICudaTask.hpp`, lines 285-297)
over a list of peer candidates: the peers probed with `cudaDeviceCanAccessPeer`,
the peers passed to `cudaDeviceEnablePeerAccess`, and the ids appended to
`nonPeerDevIds`, each in loop order. -/
structure PeerScan where
  probed : List Int
  enabled : List Int
  nonPeer : List Int
  deriving DecidableEq

/-- The body of the `for (size_t i = 0; i < numGpus; i++)` loop of `initialize`,
as a recursion over the list `[cudaIds 0, ..., cudaIds (numGpus-1)]`:
skip `peerId == cudaId`; otherwise probe, and either enable peer access or
record the peer in `nonPeerDevIds`. -/
def peerLoop (cudaId : Int) (canAccess : Int → Int → Bool) : List Int → PeerScan
  | [] => { probed := [], enabled := [], nonPeer := [] }
  | peerId :: rest =>
    let s := peerLoop cudaId canAccess rest
    if peerId = cudaId then s
    else if canAccess cudaId peerId then
      { probed := peerId :: s.probed, enabled := peerId :: s.enabled, nonPeer := s.nonPeer }
    else
      { probed := peerId :: s.probed, enabled := s.enabled,
        nonPeer := peerId :: s.nonPeer }

/-- The error text of the `HTGS_ASSERT` in `initialize` (`ICudaTask.hpp`, line 278). -/
def cudaIdErrorMsg (cudaId deviceCount : Int) : String :=
  "Error: Cuda ID: " ++ toString cudaId ++ " is larger than the number of GPUs: "
    ++ toString deviceCount

/-- Everything observable about one `initialize()` run: the final object state,
the CUDA calls made (peer probes, peer enables, whether `cudaStreamCreate`
ran), and the error raised by the `HTGS_ASSERT`, if any. -/
structure InitResult where
  task : ICudaTask
  probed : List Int
  enabled : List Int
  streamCreated : Bool
  error : Option String

/-- `void initialize()` (`ICudaTask.hpp`, lines 272-301).
Order of the source: set `cudaId = cudaIds[pipelineId]`; read the device count;
`HTGS_ASSERT(cudaId < numGpus, ...)` — modelled from the spec: `HTGS_ASSERT` is
defined outside the given sources, and per the spec it fails fast with the
descriptive runtime error when its condition is false, so a failed assert stops
`initialize` before `cudaStreamCreate` and before any peer probing; then
`cudaSetDevice`, `cudaStreamCreate(&stream)`, and, only when
`autoEnablePeerAccess` holds, the peer loop appending to `nonPeerDevIds`.
The trailing `initializeCudaGPU()` is a user hook with no effect here. -/
def ICudaTask.initializeTask (t : ICudaTask) (pipelineId : Nat) (env : CudaEnv) :
    InitResult :=
  let t1 : ICudaTask := { t with cudaId := t.cudaIds pipelineId }
  if t1.cudaId < env.deviceCount then
    let t2 : ICudaTask := { t1 with stream := env.newStream }
    if t2.autoEnablePeerAccess then
      let scan := peerLoop t2.cudaId env.canAccessPeer
        ((List.range t2.numGpus).map t2.cudaIds)
      { task := { t2 with nonPeerDevIds := t2.nonPeerDevIds ++ scan.nonPeer },
        probed := scan.probed, enabled := scan.enabled,
        streamCreated := true, error := none }
    else
      { task := t2, probed := [], enabled := [], streamCreated := true, error := none }
  else
    { task := t1, probed := [], enabled := [], streamCreated := false,
      error := some (cudaIdErrorMsg t1.cudaId env.deviceCount) }

/-! ### MemoryEdge (`htgs/core/graph/edge/MemoryEdge.hpp`) -/

/-- The slice of a `TaskManager` that `MemoryEdge::applyEdge` touches: its input
and output connectors (`nullptr` = `none`); connectors are opaque `Nat` ids. -/
structure TaskManager where
  inputConnector : Option Nat
  outputConnector : Option Nat
  deriving DecidableEq

/-- One memory edge attached to a task by
`AnyITask::attachMemoryEdge(name, getMemoryConnector, releaseMemoryConnector, type)`;
`memType` is the value of `memoryManager->getType()`. -/
structure MemoryEdgeRecord where
  name : String
  getMemoryConnector : Nat
  releaseMemoryConnector : Nat
  memType : Nat
  deriving DecidableEq

/-- The slice of an `AnyTaskGraphConf` that `MemoryEdge::applyEdge` reads and
writes: the set of tasks in the graph (`hasTask`), each task's manager
(`getTaskManager`; a fresh manager has null connectors, which is also the
default of the map), a producer count per connector id plus an allocation
counter for `new Connector()`, and the list of `(task, record)` pairs from
`attachMemoryEdge` (backing `hasMemoryEdge`). -/
structure GraphState where
  taskList : List Nat
  managerOf : Nat → TaskManager
  connectorCount : Nat → Nat
  nextConnector : Nat
  memoryEdges : List (Nat × MemoryEdgeRecord)

/-- `AnyITask::hasMemoryEdge(memoryEdgeName)` for the task `t`: the task already
has an attached memory edge of that name. -/
def GraphState.hasMemoryEdge (g : GraphState) (t : Nat) (name : String) : Bool :=
  g.memoryEdges.any fun p => p.1 == t && p.2.name == name

/-- The fields of a `MemoryEdge<T>` (lines 112-116 of `MemoryEdge.hpp`). -/
structure MemoryEdge where
  memoryEdgeName : String
  getMemoryTask : Nat
  memoryManager : Nat

/-- The three distinct `std::runtime_error`s thrown by `MemoryEdge::applyEdge`,
each carrying the task whose `getName()` appears in the message and (for the
duplicate-name error) the edge name. -/
inductive MemEdgeError where
  | duplicateMemoryEdge (taskId : Nat) (name : String)
  | taskNotInGraph (taskId : Nat)
  | memoryManagerAlreadyConnected (taskId : Nat)
  deriving DecidableEq

/-- `true` iff an `Except` value is `Except.ok`. -/
def exceptOk {ε α : Type} : Except ε α → Bool
  | .ok _ => true
  | .error _ => false

/-- `void MemoryEdge::applyEdge(AnyTaskGraphConf *graph)` (lines 56-106 of
`MemoryEdge.hpp`), as a state transformer returning either the thrown error or
the updated graph.  Order of the source: duplicate-name check; `hasTask`
check; `getTaskManager(memoryManager)`; allocate the `getMemory` and
`releaseMemory` connectors (producer count 0); null-ness checks on the
manager's input then output connector (both raise the reuse error, naming
`getMemoryTask` as the source does); `setInputConnector(release)`,
`setOutputConnector(get)`; `incrementInputTaskCount()` on each connector;
`attachMemoryEdge`.  `mmType` models `MemoryManager<T>::getType()`. -/
def MemoryEdge.applyEdge (e : MemoryEdge) (mmType : Nat → Nat) (g : GraphState) :
    Except MemEdgeError GraphState :=
  if g.hasMemoryEdge e.getMemoryTask e.memoryEdgeName then
    .error (.duplicateMemoryEdge e.getMemoryTask e.memoryEdgeName)
  else if !(g.taskList.contains e.getMemoryTask) then
    .error (.taskNotInGraph e.getMemoryTask)
  else
    let memTaskManager := g.managerOf e.memoryManager
    let getMemoryConnector := g.nextConnector
    let releaseMemoryConnector := g.nextConnector + 1
    let g1 : GraphState :=
      { g with nextConnector := g.nextConnector + 2,
               connectorCount := fun c =>
                 if c = getMemoryConnector then 0
                 else if c = releaseMemoryConnector then 0
                 else g.connectorCount c }
    if memTaskManager.inputConnector ≠ none then
      .error (.memoryManagerAlreadyConnected e.getMemoryTask)
    else if memTaskManager.outputConnector ≠ none then
      .error (.memoryManagerAlreadyConnected e.getMemoryTask)
    else
      let g2 : GraphState :=
        { g1 with managerOf := fun t =>
            if t = e.memoryManager then
              { inputConnector := some releaseMemoryConnector,
                outputConnector := some getMemoryConnector }
            else g1.managerOf t }
      let g3 : GraphState :=
        { g2 with connectorCount := fun c =>
            if c = getMemoryConnector then g2.connectorCount c + 1
            else if c = releaseMemoryConnector then g2.connectorCount c + 1
            else g2.connectorCount c }
      .ok { g3 with memoryEdges := g3.memoryEdges ++
              [(e.getMemoryTask,
                { name := e.memoryEdgeName,
                  getMemoryConnector := getMemoryConnector,
                  releaseMemoryConnector := releaseMemoryConnector,
                  memType := mmType e.memoryManager })] }

/-- `EdgeDescriptor *MemoryEdge::copy(AnyTaskGraphConf *graph)` (lines 107-111):
same edge name, both endpoint tasks replaced by `graph->getCopy(..)`. -/
def MemoryEdge.copy (e : MemoryEdge) (getCopy : Nat → Nat) : MemoryEdge :=
  { memoryEdgeName := e.memoryEdgeName,
    getMemoryTask := getCopy e.getMemoryTask,
    memoryManager := getCopy e.memoryManager }

/-! ### RuleEdge (`htgs/core/graph/edge/RuleEdge.hpp`)

This header is from an older layer of the API: it speaks of `TaskScheduler`
and `AnyTaskGraph` where `MemoryEdge.hpp` speaks of `TaskManager` and
`AnyTaskGraphConf`; we model its graph slice separately. -/

/-- The slice of a `TaskScheduler` that `RuleEdge::applyEdge` touches. -/
structure TaskScheduler where
  inputConnector : Option Nat
  outputConnector : Option Nat
  deriving DecidableEq

/-- One `RuleScheduler` held by a bookkeeper: the rule it wraps (the identity
of the shared `IRule` instance) and the output connector it is bound to. -/
structure RuleSchedulerRec where
  bookkeeper : Nat
  rule : Nat
  connector : Nat
  deriving DecidableEq

/-- The slice of an `AnyTaskGraph` that `RuleEdge::applyEdge` reads and writes:
each task's scheduler (`getTaskScheduler`; fresh schedulers have null
connectors, the map default), a producer count per connector id plus an
allocation counter, and the rule schedulers added to bookkeepers. -/
structure RuleGraphState where
  schedulerOf : Nat → TaskScheduler
  connectorCount : Nat → Nat
  nextConnector : Nat
  ruleSchedulers : List RuleSchedulerRec

/-- The fields of a `RuleEdge<T, U, W>` (lines 48-51 of `RuleEdge.hpp`); `rule`
is the identity of the `std::shared_ptr<IRule<T, U>>` instance. -/
structure RuleEdge where
  bookkeeper : Nat
  rule : Nat
  consumer : Nat

/-- `void RuleEdge::applyEdge(AnyTaskGraph *graph)` (lines 24-42 of
`RuleEdge.hpp`).  Order of the source: `getTaskScheduler(bookkeeper)` (a pure
lookup in this model); `getTaskScheduler(consumer)`; take the consumer's input
connector, or a `new Connector()` (producer count 0) when it is null; make a
`RuleScheduler` for the rule bound to that connector;
`incrementInputTaskCount()`; `setInputConnector` on the consumer;
`addRuleScheduler` on the bookkeeper. -/
def RuleEdge.applyEdge (e : RuleEdge) (g : RuleGraphState) : RuleGraphState :=
  let ts := g.schedulerOf e.consumer
  let alloc : Nat × RuleGraphState :=
    match ts.inputConnector with
    | some c => (c, g)
    | none =>
      (g.nextConnector,
       { g with nextConnector := g.nextConnector + 1,
                connectorCount := fun c =>
                  if c = g.nextConnector then 0 else g.connectorCount c })
  let cid := alloc.1
  let g1 := alloc.2
  let g2 : RuleGraphState :=
    { g1 with connectorCount := fun c =>
        if c = cid then g1.connectorCount c + 1 else g1.connectorCount c }
  let g3 : RuleGraphState :=
    { g2 with schedulerOf := fun t =>
        if t = e.consumer then { ts with inputConnector := some cid }
        else g2.schedulerOf t }
  { g3 with ruleSchedulers := g3.ruleSchedulers ++
      [{ bookkeeper := e.bookkeeper, rule := e.rule, connector := cid }] }

/-- `EdgeDescriptor *RuleEdge::copy(AnyTaskGraph *graph)` (lines 44-46):
bookkeeper and consumer replaced by `graph->getCopy(..)`, the `rule`
shared pointer passed through unchanged. -/
def RuleEdge.copy (e : RuleEdge) (getCopy : Nat → Nat) : RuleEdge :=
  { bookkeeper := getCopy e.bookkeeper, rule := e.rule, consumer := getCopy e.consumer }

/-- Applying a list of rule edges in order (`applyEdge` once per edge). -/
def applyRuleEdges (es : List RuleEdge) (g : RuleGraphState) : RuleGraphState :=
  es.foldl (fun g e => e.applyEdge g) g

/-! ### Helper lemmas about the peer-access loop -/

/-- The peers probed by the loop are exactly the candidates other than `cudaId`,
in order. -/
theorem peerLoop_probed (cudaId : Int) (canAccess : Int → Int → Bool) :
    ∀ l : List Int,
      (peerLoop cudaId canAccess l).probed = l.filter (fun p => p != cudaId)
  | [] => rfl
  | p :: rest => by
    by_cases h : p = cudaId
    · simp [peerLoop, h, peerLoop_probed cudaId canAccess rest, List.filter_cons]
    · by_cases hca : canAccess cudaId p
      · simp [peerLoop, h, hca, peerLoop_probed cudaId canAccess rest,
          List.filter_cons]
      · simp [peerLoop, h, hca, peerLoop_probed cudaId canAccess rest,
          List.filter_cons]

/-- The ids the loop appends to `nonPeerDevIds` are exactly the candidates
other than `cudaId` for which peer access is denied, in order. -/
theorem peerLoop_nonPeer (cudaId : Int) (canAccess : Int → Int → Bool) :
    ∀ l : List Int,
      (peerLoop cudaId canAccess l).nonPeer =
        l.filter (fun p => p != cudaId && !(canAccess cudaId p))
  | [] => rfl
  | p :: rest => by
    by_cases h : p = cudaId
    · simp [peerLoop, h, peerLoop_nonPeer cudaId canAccess rest, List.filter_cons]
    · by_cases hca : canAccess cudaId p
      · simp [peerLoop, h, hca, peerLoop_nonPeer cudaId canAccess rest,
          List.filter_cons]
      · simp [peerLoop, h, hca, peerLoop_nonPeer cudaId canAccess rest,
          List.filter_cons]

/-! ### Concrete states used to exercise `ICudaTask` -/

/-- An arbitrary record standing for the indeterminate member values an
`ICudaTask` object has before its constructor body runs; here the
uninitialised `autoEnablePeerAccess` byte happens to hold `true`. -/
def indetTask : ICudaTask :=
  { cudaIds := fun _ => 0, numGpus := 0, cudaId := 0, nonPeerDevIds := [],
    autoEnablePeerAccess := true, stream := 0 }

/-- A two-GPU task whose indeterminate `autoEnablePeerAccess` member reads
`false`: cuda ids `[0, 1]`, as left by the constructor. -/
def c3Task : ICudaTask :=
  { cudaIds := fun i => (i : Int), numGpus := 2, cudaId := 99, nonPeerDevIds := [],
    autoEnablePeerAccess := false, stream := 0 }

/-- The same two-GPU task with `autoEnablePeerAccess` set. -/
def c3TaskOn : ICudaTask :=
  { c3Task with autoEnablePeerAccess := true }

/-- A CUDA runtime with two devices that denies every peer-access probe. -/
def c3Env : CudaEnv :=
  { deviceCount := 2, canAccessPeer := fun _ _ => false, newStream := 7 }

/-- A task whose selected cuda id (5) exceeds the two-device count of `c3Env`. -/
def c4Task : ICudaTask :=
  { cudaIds := fun _ => 5, numGpus := 1, cudaId := 0, nonPeerDevIds := [],
    autoEnablePeerAccess := true, stream := 0 }

/-! ### Claim theorems about `ICudaTask` -/

/-- C1: the claim says the constructor stores its `autoEnablePeerAccess`
argument in the member of the same name.  The constructor body assigns only
`cudaIds` and `numGpus`, so the member keeps its indeterminate value: here the
constructor is called with `false` and the constructed object's flag still
reads `true`.  The code contradicts its own parameter documentation ("Flag to
automatically enables peer access ... (default true)") and the spec's stated
intent, so this is a defect of the code, not of the claim. -/
theorem construct_ignores_autoEnablePeerAccess :
    (ICudaTask.construct (fun _ => 0) 1 false indetTask).autoEnablePeerAccess
      = true := rfl

/-- C2: `autoCopy` returns true exactly when `cudaIds[data.pipelineId]` is in
`nonPeerDevIds`, and it issues the `cudaMemcpyPeerAsync` from the source GPU
`cudaIds[data.pipelineId]` into this task's GPU on this task's stream exactly
in the returns-true case. -/
theorem autoCopy_peer_copy_iff (t : ICudaTask) (dest : Nat) (data : MemoryData)
    (numElems elemSize : Int) :
    (t.autoCopy dest data numElems elemSize).1
        = t.nonPeerDevIds.contains (t.cudaIds data.pipelineId)
      ∧ (t.autoCopy dest data numElems elemSize).2
        = (if (t.autoCopy dest data numElems elemSize).1 then
             some { dstAddr := dest, dstDevice := t.cudaId,
                    srcAddr := data.addr, srcDevice := t.cudaIds data.pipelineId,
                    count := elemSize * numElems, stream := t.stream }
           else none) := by
  by_cases h : t.requiresCopy data.pipelineId
  · simp only [ICudaTask.autoCopy, if_pos h]
    exact ⟨h.symm, rfl⟩
  · simp only [ICudaTask.autoCopy, if_neg h]
    exact ⟨(Bool.eq_false_iff.mpr h).symm, rfl⟩

/-- C3 counterexample: with the concrete state `c3Task` (two GPUs `[0,1]`,
`autoEnablePeerAccess` reading `false`, empty `nonPeerDevIds`) and a runtime
that denies every peer probe, `initialize` at pipeline 0 probes nothing and
leaves `nonPeerDevIds` empty, although GPU 1 is another GPU listed in
`cudaIds` to which peer access would be denied — refuting the claim that
`initialize()` probes every other GPU and records exactly the denied ones. -/
theorem initialize_no_probe_counterexample :
    (c3Task.initializeTask 0 c3Env).task.nonPeerDevIds = []
      ∧ (c3Task.initializeTask 0 c3Env).probed = []
      ∧ c3Task.cudaIds 1 = 1
      ∧ (c3Task.initializeTask 0 c3Env).task.cudaId = 0
      ∧ c3Env.canAccessPeer 0 1 = false
      ∧ (c3Task.initializeTask 0 c3Env).error = none := by
  decide

/-- C3 (amended): when `autoEnablePeerAccess` is true, `nonPeerDevIds` starts
empty (as the constructor leaves it) and the selected id is within the device
count, `initialize()` sets `cudaId` to `cudaIds[pipelineId]`, creates the CUDA
stream, probes peer access to every other GPU listed in `cudaIds`, and
afterwards `nonPeerDevIds` holds exactly those other GPU ids in `cudaIds` for
which peer access was denied. -/
theorem initialize_peer_probe (t : ICudaTask) (pid : Nat) (env : CudaEnv)
    (hflag : t.autoEnablePeerAccess = true)
    (hempty : t.nonPeerDevIds = [])
    (hrange : t.cudaIds pid < env.deviceCount) :
    (t.initializeTask pid env).error = none
      ∧ (t.initializeTask pid env).task.cudaId = t.cudaIds pid
      ∧ (t.initializeTask pid env).streamCreated = true
      ∧ (t.initializeTask pid env).task.stream = env.newStream
      ∧ (t.initializeTask pid env).probed
          = ((List.range t.numGpus).map t.cudaIds).filter
              (fun p => p != t.cudaIds pid)
      ∧ ∀ x : Int,
          x ∈ (t.initializeTask pid env).task.nonPeerDevIds ↔
            (∃ i, i < t.numGpus ∧ t.cudaIds i = x)
              ∧ x ≠ t.cudaIds pid
              ∧ env.canAccessPeer (t.cudaIds pid) x = false := by
  unfold ICudaTask.initializeTask
  simp only [hrange, if_pos, hflag, if_true, hempty]
  refine ⟨trivial, trivial, trivial, trivial, peerLoop_probed _ _ _, fun x => ?_⟩
  rw [peerLoop_nonPeer]
  simp [List.mem_filter, List.mem_map, List.mem_range, bne_iff_ne,
    Bool.and_eq_true, and_assoc, eq_comm (a := x)]

/-- C3 witness: `initialize` on the flag-on task `c3TaskOn` under `c3Env`
succeeds, creates the stream, probes GPU 1, and records it as non-peer. -/
theorem initialize_peer_probe_witness :
    (c3TaskOn.initializeTask 0 c3Env).error = none
      ∧ (c3TaskOn.initializeTask 0 c3Env).streamCreated = true :=
  ⟨(initialize_peer_probe c3TaskOn 0 c3Env rfl rfl (by decide)).1,
   (initialize_peer_probe c3TaskOn 0 c3Env rfl rfl (by decide)).2.2.1⟩

/-- C4: `initialize()` raises an error iff the selected cuda id
`cudaIds[pipelineId]` is not below the reported device count, and in that case
the error is the descriptive range message and it fires before the stream is
created and before any peer access is probed or enabled. -/
theorem initialize_range_check (t : ICudaTask) (pid : Nat) (env : CudaEnv) :
    ((t.initializeTask pid env).error.isSome = true
        ↔ ¬ (t.cudaIds pid < env.deviceCount))
      ∧ (¬ (t.cudaIds pid < env.deviceCount) →
          (t.initializeTask pid env).error
              = some (cudaIdErrorMsg (t.cudaIds pid) env.deviceCount)
            ∧ (t.initializeTask pid env).streamCreated = false
            ∧ (t.initializeTask pid env).probed = []
            ∧ (t.initializeTask pid env).enabled = []) := by
  unfold ICudaTask.initializeTask
  by_cases h : t.cudaIds pid < env.deviceCount
  · by_cases hf : t.autoEnablePeerAccess
    · simp [h, hf]
    · simp [h, hf]
  · simp [h]

/-- C4 witness: `c4Task` selects cuda id 5 under the two-device `c3Env`, so
`initialize` fails with the descriptive message, with no stream and no probes. -/
theorem initialize_range_check_witness :
    (c4Task.initializeTask 0 c3Env).error = some (cudaIdErrorMsg 5 2)
      ∧ (c4Task.initializeTask 0 c3Env).streamCreated = false :=
  ⟨((initialize_range_check c4Task 0 c3Env).2 (by decide)).1,
   ((initialize_range_check c4Task 0 c3Env).2 (by decide)).2.1⟩

/-- C9: `hasPeerToPeerCopy` ignores its `pipelineId` argument — its value is
the same for any two arguments and equals the negation of `requiresCopy`
applied to the task's own `cudaId` (converted to `size_t`), not to the
requested pipeline. -/
theorem hasPeerToPeerCopy_ignores_argument (t : ICudaTask) (p q : Nat) :
    t.hasPeerToPeerCopy p = t.hasPeerToPeerCopy q
      ∧ t.hasPeerToPeerCopy p = !(t.requiresCopy (sizeTCast t.cudaId)) :=
  ⟨rfl, rfl⟩

/-! ### Helper lemmas and concrete states for the edge descriptors -/

/-- The state carried by an `Except.ok`, with a default for the error case. -/
def exceptOkState (r : Except MemEdgeError GraphState) (d : GraphState) :
    GraphState :=
  match r with
  | .ok g => g
  | .error _ => d

/-- A one-task graph: task 1 is in the graph, every manager is fresh
(null connectors), no connector allocated yet, no memory edge attached. -/
def g7 : GraphState :=
  { taskList := [1], managerOf := fun _ => { inputConnector := none, outputConnector := none },
    connectorCount := fun _ => 0, nextConnector := 0, memoryEdges := [] }

/-- A memory edge named "mem" from memory manager 2 to task 1. -/
def e7 : MemoryEdge :=
  { memoryEdgeName := "mem", getMemoryTask := 1, memoryManager := 2 }

/-- A trivial `getType` assignment for memory managers. -/
def mm7 : Nat → Nat := fun _ => 0

/-- `g7` with the edge name "mem" already attached to task 1. -/
def g5dup : GraphState :=
  { g7 with memoryEdges :=
      [(1, { name := "mem", getMemoryConnector := 0,
             releaseMemoryConnector := 1, memType := 0 })] }

/-- `g7` where every task manager already has an input connector, as after a
memory manager has been connected once. -/
def g6used : GraphState :=
  { g7 with managerOf := fun _ =>
      { inputConnector := some 5, outputConnector := none } }

/-! ### Claim theorems about `MemoryEdge` -/

/-- C5: `MemoryEdge::applyEdge` throws the duplicate-name error exactly when
the task getting memory already has a memory edge of that name: if
`hasMemoryEdge` holds it throws that error, and if not, whatever else happens,
the duplicate-name error is never the outcome. -/
theorem memoryEdge_duplicate_name (e : MemoryEdge) (mmType : Nat → Nat)
    (g : GraphState) :
    (g.hasMemoryEdge e.getMemoryTask e.memoryEdgeName = true →
        e.applyEdge mmType g
          = .error (.duplicateMemoryEdge e.getMemoryTask e.memoryEdgeName))
      ∧ (g.hasMemoryEdge e.getMemoryTask e.memoryEdgeName = false →
        ∀ tid name, e.applyEdge mmType g ≠ .error (.duplicateMemoryEdge tid name)) := by
  constructor
  · intro h
    simp [MemoryEdge.applyEdge, h]
  · intro h tid name hcontra
    simp only [MemoryEdge.applyEdge, h] at hcontra
    by_cases h1 : e.getMemoryTask ∈ g.taskList
    · by_cases h2 : (g.managerOf e.memoryManager).inputConnector = none
      · by_cases h3 : (g.managerOf e.memoryManager).outputConnector = none
        · simp [h1, h2, h3] at hcontra
        · simp [h1, h2, h3] at hcontra
      · simp [h1, h2] at hcontra
    · simp [h1] at hcontra

/-- C6: whenever the memory manager's task manager already has a non-null
input or output connector, `MemoryEdge::applyEdge` throws (never succeeds) —
so a memory manager instance is attached to at most one graph. -/
theorem memoryEdge_manager_reuse (e : MemoryEdge) (mmType : Nat → Nat)
    (g : GraphState)
    (h : (g.managerOf e.memoryManager).inputConnector ≠ none
       ∨ (g.managerOf e.memoryManager).outputConnector ≠ none) :
    exceptOk (e.applyEdge mmType g) = false := by
  simp only [MemoryEdge.applyEdge]
  split
  · rfl
  · split
    · rfl
    · rcases h with h | h
      · rw [if_pos h]
        rfl
      · by_cases hin : (g.managerOf e.memoryManager).inputConnector ≠ none
        · rw [if_pos hin]
          rfl
        · rw [if_neg hin, if_pos h]
          rfl

/-- C6 witness: in `g6used` the manager of task 2 already has input connector
5, so applying the edge `e7` does not succeed. -/
theorem memoryEdge_manager_reuse_witness :
    exceptOk (e7.applyEdge mm7 g6used) = false :=
  memoryEdge_manager_reuse e7 mm7 g6used (Or.inl (by decide))

/-- C5 witness: on `g5dup` (name "mem" already attached to task 1) the edge
fails with the duplicate-name error; on the clean graph `g7` it never produces
that error. -/
theorem memoryEdge_duplicate_name_witness :
    e7.applyEdge mm7 g5dup = .error (.duplicateMemoryEdge 1 "mem")
      ∧ e7.applyEdge mm7 g7 ≠ .error (.duplicateMemoryEdge 1 "mem") :=
  ⟨(memoryEdge_duplicate_name e7 mm7 g5dup).1 (by decide),
   (memoryEdge_duplicate_name e7 mm7 g7).2 (by decide) 1 "mem"⟩

/-- C7: after a successful `MemoryEdge::applyEdge`, the memory manager's task
manager has the release connector (id `nextConnector + 1`) as input and
the get-memory connector (id `nextConnector`) as output, each fresh
connector's producer count was incremented exactly once (0 to 1), and the
named edge — both connectors plus the manager's type — was attached to the
task getting memory. -/
theorem memoryEdge_apply_success (e : MemoryEdge) (mmType : Nat → Nat)
    (g gr : GraphState) (h : e.applyEdge mmType g = .ok gr) :
    (gr.managerOf e.memoryManager).inputConnector = some (g.nextConnector + 1)
      ∧ (gr.managerOf e.memoryManager).outputConnector = some g.nextConnector
      ∧ gr.connectorCount g.nextConnector = 1
      ∧ gr.connectorCount (g.nextConnector + 1) = 1
      ∧ gr.memoryEdges = g.memoryEdges ++
          [(e.getMemoryTask,
            { name := e.memoryEdgeName, getMemoryConnector := g.nextConnector,
              releaseMemoryConnector := g.nextConnector + 1,
              memType := mmType e.memoryManager })] := by
  simp only [MemoryEdge.applyEdge] at h
  split at h
  · exact absurd h (by simp)
  · split at h
    · exact absurd h (by simp)
    · split at h
      · exact absurd h (by simp)
      · split at h
        · exact absurd h (by simp)
        · cases h
          simp [Nat.succ_ne_self]

/-- C7 witness: applying `e7` to the clean graph `g7` succeeds and yields
release connector 1 as the manager's input, get connector 0 as its output,
both with producer count 1. -/
theorem memoryEdge_apply_success_witness :
    ((exceptOkState (e7.applyEdge mm7 g7) g7).managerOf 2).inputConnector = some 1
      ∧ ((exceptOkState (e7.applyEdge mm7 g7) g7).managerOf 2).outputConnector = some 0
      ∧ (exceptOkState (e7.applyEdge mm7 g7) g7).connectorCount 0 = 1
      ∧ (exceptOkState (e7.applyEdge mm7 g7) g7).connectorCount 1 = 1 :=
  ⟨(memoryEdge_apply_success e7 mm7 g7 _ rfl).1,
   (memoryEdge_apply_success e7 mm7 g7 _ rfl).2.1,
   (memoryEdge_apply_success e7 mm7 g7 _ rfl).2.2.1,
   (memoryEdge_apply_success e7 mm7 g7 _ rfl).2.2.2.1⟩

/-- C8: under a clone map `getCopy`, `MemoryEdge::copy` keeps the edge name
and replaces both endpoint tasks by their clones, and `RuleEdge::copy`
replaces bookkeeper and consumer by their clones while passing the very same
`IRule` instance through — the rule is shared, not copied. -/
theorem edge_copy_clone_map (me : MemoryEdge) (re : RuleEdge)
    (getCopy : Nat → Nat) :
    (me.copy getCopy).memoryEdgeName = me.memoryEdgeName
      ∧ (me.copy getCopy).getMemoryTask = getCopy me.getMemoryTask
      ∧ (me.copy getCopy).memoryManager = getCopy me.memoryManager
      ∧ (re.copy getCopy).bookkeeper = getCopy re.bookkeeper
      ∧ (re.copy getCopy).consumer = getCopy re.consumer
      ∧ (re.copy getCopy).rule = re.rule :=
  ⟨rfl, rfl, rfl, rfl, rfl, rfl⟩

/-! ### Helper lemmas about `RuleEdge::applyEdge` -/

/-- One `applyEdge` step on a consumer that already has an input connector
`c`: the connector is reused, its producer count rises by one, other counts
and other schedulers are untouched, exactly one rule scheduler bound to `c`
is appended, and no connector is allocated. -/
theorem ruleEdge_apply_step (e : RuleEdge) (g : RuleGraphState) (c : Nat)
    (hc : (g.schedulerOf e.consumer).inputConnector = some c) :
    ((e.applyEdge g).schedulerOf e.consumer).inputConnector = some c
      ∧ (e.applyEdge g).connectorCount c = g.connectorCount c + 1
      ∧ (∀ d, d ≠ c → (e.applyEdge g).connectorCount d = g.connectorCount d)
      ∧ (e.applyEdge g).ruleSchedulers
          = g.ruleSchedulers
            ++ [{ bookkeeper := e.bookkeeper, rule := e.rule, connector := c }]
      ∧ (e.applyEdge g).nextConnector = g.nextConnector
      ∧ ∀ t, t ≠ e.consumer → (e.applyEdge g).schedulerOf t = g.schedulerOf t := by
  simp only [RuleEdge.applyEdge, hc]
  refine ⟨by simp, by simp, ?_, by simp, by simp, ?_⟩
  · intro d hd
    simp [hd]
  · intro t ht
    simp [ht]

/-- Applying a list of rule edges that all target the consumer `t`, starting
from a state where `t` already has input connector `c`: the connector stays
`c`, its producer count rises by the number of edges, and one rule scheduler
is added per edge. -/
theorem applyRuleEdges_shared (t c : Nat) :
    ∀ (es : List RuleEdge) (g : RuleGraphState),
      (∀ e2 ∈ es, RuleEdge.consumer e2 = t) →
      (g.schedulerOf t).inputConnector = some c →
      ((applyRuleEdges es g).schedulerOf t).inputConnector = some c
        ∧ (applyRuleEdges es g).connectorCount c
            = g.connectorCount c + es.length
        ∧ (applyRuleEdges es g).ruleSchedulers.length
            = g.ruleSchedulers.length + es.length
  | [], g, _, hc => ⟨hc, rfl, rfl⟩
  | e2 :: rest, g, hall, hc => by
    have he2 : e2.consumer = t := hall e2 (List.mem_cons_self e2 rest)
    have step := ruleEdge_apply_step e2 g c (by rw [he2]; exact hc)
    have tail := applyRuleEdges_shared t c rest (e2.applyEdge g)
      (fun e3 h3 => hall e3 (List.mem_cons_of_mem e2 h3))
      (by rw [← he2]; exact step.1)
    refine ⟨tail.1, ?_, ?_⟩
    · rw [show applyRuleEdges (e2 :: rest) g = applyRuleEdges rest (e2.applyEdge g) from rfl,
        tail.2.1, step.2.1, List.length_cons]
      omega
    · rw [show applyRuleEdges (e2 :: rest) g = applyRuleEdges rest (e2.applyEdge g) from rfl,
        tail.2.2, step.2.2.2.1, List.length_append, List.length_cons]
      simp
      omega

/-- A rule-edge graph where consumer task 3 already has input connector 0,
one connector allocated, no rule schedulers yet. -/
def gr10 : RuleGraphState :=
  { schedulerOf := fun t =>
      if t = 3 then { inputConnector := some 0, outputConnector := none }
      else { inputConnector := none, outputConnector := none },
    connectorCount := fun _ => 0, nextConnector := 1, ruleSchedulers := [] }

/-- A rule-edge graph with no connectors at all. -/
def gr10fresh : RuleGraphState :=
  { schedulerOf := fun _ => { inputConnector := none, outputConnector := none },
    connectorCount := fun _ => 0, nextConnector := 0, ruleSchedulers := [] }

/-- A rule edge from bookkeeper 7, carrying rule 9, into consumer task 3. -/
def re10 : RuleEdge := { bookkeeper := 7, rule := 9, consumer := 3 }

/-! ### Claim theorem about `RuleEdge::applyEdge` -/

/-- C10: `RuleEdge::applyEdge` reuses the consumer's existing input connector
when one is set and creates a fresh one (producer count 0) only when the
consumer has none; in either case it increments that connector's producer
count by exactly one and appends exactly one rule scheduler bound to it, so
attaching k rule edges to one consumer yields one shared connector whose
producer count rises by k with one scheduler added per edge. -/
theorem ruleEdge_apply_connector_sharing (e : RuleEdge) (g : RuleGraphState) :
    (∀ c, (g.schedulerOf e.consumer).inputConnector = some c →
        ((e.applyEdge g).schedulerOf e.consumer).inputConnector = some c
          ∧ (e.applyEdge g).connectorCount c = g.connectorCount c + 1
          ∧ (e.applyEdge g).ruleSchedulers
              = g.ruleSchedulers
                ++ [{ bookkeeper := e.bookkeeper, rule := e.rule, connector := c }]
          ∧ (e.applyEdge g).nextConnector = g.nextConnector)
      ∧ ((g.schedulerOf e.consumer).inputConnector = none →
        ((e.applyEdge g).schedulerOf e.consumer).inputConnector
            = some g.nextConnector
          ∧ (e.applyEdge g).connectorCount g.nextConnector = 1
          ∧ (e.applyEdge g).ruleSchedulers
              = g.ruleSchedulers
                ++ [{ bookkeeper := e.bookkeeper, rule := e.rule,
                      connector := g.nextConnector }]
          ∧ (e.applyEdge g).nextConnector = g.nextConnector + 1)
      ∧ (∀ es : List RuleEdge, (∀ e2 ∈ es, RuleEdge.consumer e2 = e.consumer) →
          ∀ c, (g.schedulerOf e.consumer).inputConnector = some c →
            ((applyRuleEdges es g).schedulerOf e.consumer).inputConnector = some c
              ∧ (applyRuleEdges es g).connectorCount c
                  = g.connectorCount c + es.length
              ∧ (applyRuleEdges es g).ruleSchedulers.length
                  = g.ruleSchedulers.length + es.length) := by
  refine ⟨?_, ?_, ?_⟩
  · intro c hc
    have step := ruleEdge_apply_step e g c hc
    exact ⟨step.1, step.2.1, step.2.2.2.1, step.2.2.2.2.1⟩
  · intro hc
    simp only [RuleEdge.applyEdge, hc]
    refine ⟨by simp, by simp, by simp, by simp⟩
  · intro es hall c hc
    exact applyRuleEdges_shared e.consumer c es g hall hc

/-- C10 witness: on `gr10` (consumer 3 already wired to connector 0), one
application reuses connector 0 raising its count to 1, and applying two edges
raises it to 2 with two schedulers added; on `gr10fresh` a fresh connector 0
is created with count 1. -/
theorem ruleEdge_apply_connector_sharing_witness :
    (((re10.applyEdge gr10).schedulerOf 3).inputConnector = some 0
        ∧ (re10.applyEdge gr10).connectorCount 0 = 1)
      ∧ ((applyRuleEdges [re10, re10] gr10).connectorCount 0 = 2
        ∧ (applyRuleEdges [re10, re10] gr10).ruleSchedulers.length = 2)
      ∧ ((re10.applyEdge gr10fresh).schedulerOf 3).inputConnector = some 0 :=
  ⟨⟨((ruleEdge_apply_connector_sharing re10 gr10).1 0 (by decide)).1,
    ((ruleEdge_apply_connector_sharing re10 gr10).1 0 (by decide)).2.1⟩,
   ⟨((ruleEdge_apply_connector_sharing re10 gr10).2.2 [re10, re10]
        (by intro e2 h2; simp at h2; simp [h2]) 0 (by decide)).2.1,
    ((ruleEdge_apply_connector_sharing re10 gr10).2.2 [re10, re10]
        (by intro e2 h2; simp at h2; simp [h2]) 0 (by decide)).2.2⟩,
   ((ruleEdge_apply_connector_sharing re10 gr10fresh).2.1 (by decide)).1⟩

end HTGS
